import Mathlib

/-!
Shallow embedding of src/src/element.rs from gstreamer1.0-rs: a Rust wrapper
around a native GStreamer element.  The native runtime is modelled by an
environment `Env` recording what each native entry point would answer; every
wrapper method becomes a Lean function from the environment and the handle
state to a result, an updated handle state, and the trace of native effects
the call performs (seeks issued, threads spawned, queries, state requests,
reference-count operations).  Rust `f64` values are modelled by exact
rationals: the only floating-point operations the code performs are sign
tests, equality with zero, one multiplication and one cast to `i64`, which
coincide with exact rational arithmetic on all in-range inputs considered
here.  Rust `i64` is modelled by `Int` (no arithmetic in the code can
overflow it: values are passed through unchanged).
-/

namespace Gst

/-- Formats accepted by the native query/seek entry points; the wrapper only
ever passes `GST_FORMAT_TIME`, but the queries are format-indexed. -/
inductive GstFormat
  | UNDEFINED
  | DEFAULT
  | BYTES
  | TIME
  | BUFFERS
  | PERCENT
deriving DecidableEq, Repr

/-- Element lifecycle states of the native state machine. -/
inductive GstState
  | VOID_PENDING
  | NULL
  | READY
  | PAUSED
  | PLAYING
deriving DecidableEq, Repr

/-- Results of a native state change. -/
inductive GstStateChangeReturn
  | FAILURE
  | SUCCESS
  | ASYNC
  | NO_PREROLL
deriving DecidableEq, Repr

/-- Seek bound types (gstreamer GstSeekType). -/
inductive GstSeekType
  | NONE
  | SET
  | END
deriving DecidableEq, Repr

/-- GST_SEEK_FLAG_FLUSH bit (1 << 0). -/
def GST_SEEK_FLAG_FLUSH : Nat := 1

/-- GST_SEEK_FLAG_ACCURATE bit (1 << 1). -/
def GST_SEEK_FLAG_ACCURATE : Nat := 2

/-- GST_SEEK_FLAG_SKIP bit (1 << 4). -/
def GST_SEEK_FLAG_SKIP : Nat := 16

/-- Argument tuple of gst_element_seek, as forwarded by `ElementT::seek`. -/
structure SeekArgs where
  rate : ℚ
  format : GstFormat
  flags : Nat
  start_type : GstSeekType
  start : Int
  stop_type : GstSeekType
  stop : Int
deriving DecidableEq, Repr

/-- One native call performed by a wrapper method.  `spawnSeek` records that a
detached thread was spawned which will run gst_element_get_state with a one
second timeout, then gst_element_seek with the recorded arguments, then
gst_object_unref of its temporary reference (element.rs lines 346-358). -/
inductive Effect
  | seek (args : SeekArgs)
  | spawnSeek (args : SeekArgs)
  | queryPos (format : GstFormat)
  | queryDur (format : GstFormat)
  | setState (state : GstState)
  | getState (timeout : Int)
  | refSink
  | ref
  | unref
deriving DecidableEq, Repr

/-- The native runtime, abstracted as the answers it gives to the native calls
the wrapper makes.  `seekR` decides whether gst_element_seek returns 1 for a
given argument tuple; the query fields give the value reported (or `none` when
the native query returns 0, e.g. before preroll). -/
structure Env where
  queryPositionR : GstFormat → Option Int
  queryDurationR : GstFormat → Option Int
  seekR : SeekArgs → Bool
  setStateR : GstState → GstStateChangeReturn
  getStateR : Int → GstState × GstState × GstStateChangeReturn

/-- The wrapper struct Element (element.rs lines 13-17) minus the raw
`*mut GstElement` pointer, which carries no observable state of its own: the
client-side cached playback rate and last known position in nanoseconds. -/
structure Element where
  speed : ℚ
  last_pos_ns : Int
deriving DecidableEq, Repr

/-- Result of one wrapper call: the returned value, the handle state after the
call, and the native effects the call performed, in order. -/
structure Res (α : Type) where
  ret : α
  el : Element
  fx : List Effect

/-- Rust `as i64` on an in-range `f64`: truncation toward zero. -/
def f64_as_i64 (q : ℚ) : Int :=
  if 0 ≤ q then ⌊q⌋ else ⌈q⌉

/-- Modelled from the spec: `s_to_ns` lives in util.rs, which is not under
src/; the spec describes the `_s` shortcuts as second-to-nanosecond
conversions of the corresponding `_ns` operations. -/
def s_to_ns (s : ℚ) : ℚ := s * 1000000000

/-- Element::new (element.rs lines 30-41): on factory success the native
reference is sunk once and the handle starts with speed 1.0 and last position
0; on a null factory result the constructor returns absence. -/
def Element.new (factory_ok : Bool) : Option Element × List Effect :=
  if factory_ok then (some ⟨1, 0⟩, [Effect.refSink])
  else (none, [])

/-- ElementT::set_state (element.rs lines 313-317). -/
def set_state (env : Env) (el : Element) (state : GstState) :
    Res GstStateChangeReturn :=
  ⟨env.setStateR state, el, [Effect.setState state]⟩

/-- ElementT::get_state (element.rs lines 319-326). -/
def get_state (env : Env) (el : Element) (timeout : Int) :
    Res (GstState × GstState × GstStateChangeReturn) :=
  ⟨env.getStateR timeout, el, [Effect.getState timeout]⟩

/-- Drop for Element (element.rs lines 19-27): request NULL, wait with an
unbounded (negative) timeout for the transition to settle, release the owned
reference. -/
def drop (env : Env) (el : Element) : List Effect :=
  (set_state env el GstState.NULL).fx ++
    (get_state env el (-1)).fx ++ [Effect.unref]

/-- ElementT::seek (element.rs lines 340-344). -/
def seek (env : Env) (el : Element) (rate : ℚ) (format : GstFormat)
    (flags : Nat) (start_type : GstSeekType) (start : Int)
    (stop_type : GstSeekType) (stop : Int) : Res Bool :=
  let a : SeekArgs := ⟨rate, format, flags, start_type, start, stop_type, stop⟩
  ⟨env.seekR a, el, [Effect.seek a]⟩

/-- ElementT::seek_async (element.rs lines 346-358): takes a temporary extra
reference and spawns a detached thread which performs the seek; the caller
observes no result. -/
def seek_async (env : Env) (el : Element) (rate : ℚ) (format : GstFormat)
    (flags : Nat) (start_type : GstSeekType) (start : Int)
    (stop_type : GstSeekType) (stop : Int) : Res Unit :=
  let a : SeekArgs := ⟨rate, format, flags, start_type, start, stop_type, stop⟩
  ⟨(), el, [Effect.ref, Effect.spawnSeek a]⟩

/-- ElementT::query_position (element.rs lines 371-380). -/
def query_position (env : Env) (el : Element) (format : GstFormat) :
    Res (Option Int) :=
  ⟨env.queryPositionR format, el, [Effect.queryPos format]⟩

/-- ElementT::query_duration (element.rs lines 360-369). -/
def query_duration (env : Env) (el : Element) (format : GstFormat) :
    Res (Option Int) :=
  ⟨env.queryDurationR format, el, [Effect.queryDur format]⟩

/-- ElementT::duration_ns (element.rs lines 382-384). -/
def duration_ns (env : Env) (el : Element) : Res (Option Int) :=
  query_duration env el GstFormat.TIME

/-- ElementT::position_ns (element.rs lines 394-399): the live query when it
answers, the cached last position otherwise. -/
def position_ns (env : Env) (el : Element) : Res Int :=
  let q := query_position env el GstFormat.TIME
  ⟨match q.ret with
    | some t => t
    | none => el.last_pos_ns, el, q.fx⟩

/-- ElementT::position_pct (element.rs lines 401-409).  The f64 division is
modelled by rational division; the code never guards against a zero duration,
and neither does the model (a zero denominator cannot arise from a real
duration query, and the claims about this operation are stated away from it). -/
def position_pct (env : Env) (el : Element) : Res (Option ℚ) :=
  let pos := position_ns env el
  let dur := duration_ns env el
  ⟨match dur.ret with
    | some d => some ((pos.ret : ℚ) / (d : ℚ))
    | none => none, el, pos.fx ++ dur.fx⟩

/-- ElementT::set_position_ns (element.rs lines 419-443): flush-flagged seek
holding the cached rate; forward bounds (ns, -1) when the rate is positive,
reverse bounds (0, ns) otherwise; the cached position is updated only when the
seek reports success. -/
def set_position_ns (env : Env) (el : Element) (ns : Int) : Res Bool :=
  let format := GstFormat.TIME
  let flags := GST_SEEK_FLAG_FLUSH
  let sp := el.speed
  let r :=
    if sp > 0 then
      seek env el sp format flags GstSeekType.SET ns GstSeekType.SET (-1)
    else
      seek env el sp format flags GstSeekType.SET 0 GstSeekType.SET ns
  if r.ret then ⟨r.ret, { r.el with last_pos_ns := ns }, r.fx⟩
  else ⟨r.ret, r.el, r.fx⟩

/-- ElementT::set_position_s (element.rs lines 445-447). -/
def set_position_s (env : Env) (el : Element) (s : ℚ) : Res Bool :=
  set_position_ns env el (f64_as_i64 (s_to_ns s))

/-- ElementT::set_position_pct (element.rs lines 449-455): read the duration;
when known, forward to set_position_ns at `(t as f64 * pct) as i64`; when
unknown, fail without any seek. -/
def set_position_pct (env : Env) (el : Element) (pct : ℚ) : Res Bool :=
  let dur := duration_ns env el
  match dur.ret with
  | some t =>
    let r := set_position_ns env el (f64_as_i64 ((t : ℚ) * pct))
    ⟨r.ret, r.el, dur.fx ++ r.fx⟩
  | none => ⟨false, el, dur.fx⟩

/-- ElementT::set_speed (element.rs lines 457-494): rate 0 stores the rate and
requests PAUSED without seeking; otherwise query the position (failing if it
is unanswered), re-seek it at the new rate with skip+accurate+flush flags, and
store the rate only on seek success. -/
def set_speed (env : Env) (el : Element) (sp : ℚ) : Res Bool :=
  let format := GstFormat.TIME
  let flags := GST_SEEK_FLAG_SKIP ||| GST_SEEK_FLAG_ACCURATE ||| GST_SEEK_FLAG_FLUSH
  if sp = 0 then
    let el2 : Element := { el with speed := sp }
    let r := set_state env el2 GstState.PAUSED
    ⟨decide (r.ret ≠ GstStateChangeReturn.FAILURE), r.el, r.fx⟩
  else
    let q := query_position env el GstFormat.TIME
    match q.ret with
    | none => ⟨false, el, q.fx⟩
    | some pos =>
      let r :=
        if sp > 0 then
          seek env el sp format flags GstSeekType.SET pos GstSeekType.SET (-1)
        else
          seek env el sp format flags GstSeekType.SET 0 GstSeekType.SET pos
      if r.ret then ⟨r.ret, { r.el with speed := sp }, q.fx ++ r.fx⟩
      else ⟨r.ret, r.el, q.fx ++ r.fx⟩

/-- ElementT::set_position_ns_async (element.rs lines 496-516): spawn the
accurate+flush seek with the same forward/reverse bound choice as the
synchronous variant, then update the cached position unconditionally. -/
def set_position_ns_async (env : Env) (el : Element) (ns : Int) : Res Unit :=
  let format := GstFormat.TIME
  let flags := GST_SEEK_FLAG_ACCURATE ||| GST_SEEK_FLAG_FLUSH
  let sp := el.speed
  let r :=
    if sp > 0 then
      seek_async env el sp format flags GstSeekType.SET ns GstSeekType.SET (-1)
    else
      seek_async env el sp format flags GstSeekType.SET 0 GstSeekType.SET ns
  ⟨(), { r.el with last_pos_ns := ns }, r.fx⟩

/-- ElementT::set_position_s_async (element.rs lines 518-520). -/
def set_position_s_async (env : Env) (el : Element) (s : ℚ) : Res Unit :=
  set_position_ns_async env el (f64_as_i64 (s_to_ns s))

/-- ElementT::set_position_pct_async (element.rs lines 522-528): read the
duration; when known, forward to set_position_ns_async and report true; when
unknown, report false without spawning anything. -/
def set_position_pct_async (env : Env) (el : Element) (pct : ℚ) : Res Bool :=
  let dur := duration_ns env el
  match dur.ret with
  | some t =>
    let r := set_position_ns_async env el (f64_as_i64 ((t : ℚ) * pct))
    ⟨true, r.el, dur.fx ++ r.fx⟩
  | none => ⟨false, el, dur.fx⟩

/-- ElementT::set_speed_async (element.rs lines 530-562): stores the new rate
first, unconditionally; then the same decision logic as set_speed with the
seek spawned instead of issued synchronously. -/
def set_speed_async (env : Env) (el : Element) (sp : ℚ) : Res Bool :=
  let format := GstFormat.TIME
  let flags := GST_SEEK_FLAG_SKIP ||| GST_SEEK_FLAG_ACCURATE ||| GST_SEEK_FLAG_FLUSH
  let el1 : Element := { el with speed := sp }
  if sp = 0 then
    let r := set_state env el1 GstState.PAUSED
    ⟨decide (r.ret ≠ GstStateChangeReturn.FAILURE), r.el, r.fx⟩
  else
    let q := query_position env el1 GstFormat.TIME
    match q.ret with
    | none => ⟨false, el1, q.fx⟩
    | some pos =>
      let r :=
        if sp > 0 then
          seek_async env el1 sp format flags GstSeekType.SET pos GstSeekType.SET (-1)
        else
          seek_async env el1 sp format flags GstSeekType.SET 0 GstSeekType.SET pos
      ⟨true, r.el, q.fx ++ r.fx⟩

/-- ElementT::is_paused (element.rs lines 594-600): true only on the exact
pattern (PAUSED, _, SUCCESS) from an unbounded get_state. -/
def is_paused (env : Env) (el : Element) : Res Bool :=
  let r := get_state env el (-1)
  match r.ret with
  | (GstState.PAUSED, _, GstStateChangeReturn.SUCCESS) => ⟨true, el, r.fx⟩
  | _ => ⟨false, el, r.fx⟩

/-- ElementT::is_playing (element.rs lines 602-608). -/
def is_playing (env : Env) (el : Element) : Res Bool :=
  let r := get_state env el (-1)
  match r.ret with
  | (GstState.PLAYING, _, GstStateChangeReturn.SUCCESS) => ⟨true, el, r.fx⟩
  | _ => ⟨false, el, r.fx⟩

/-- ElementT::is_null_state (element.rs lines 610-616). -/
def is_null_state (env : Env) (el : Element) : Res Bool :=
  let r := get_state env el (-1)
  match r.ret with
  | (GstState.NULL, _, GstStateChangeReturn.SUCCESS) => ⟨true, el, r.fx⟩
  | _ => ⟨false, el, r.fx⟩

/-- ElementT::is_ready_state (element.rs lines 618-624). -/
def is_ready_state (env : Env) (el : Element) : Res Bool :=
  let r := get_state env el (-1)
  match r.ret with
  | (GstState.READY, _, GstStateChangeReturn.SUCCESS) => ⟨true, el, r.fx⟩
  | _ => ⟨false, el, r.fx⟩

/-- Recognizer for synchronous seek effects. -/
def isSeekFx : Effect → Bool
  | Effect.seek _ => true
  | _ => false

/-- Recognizer for thread-spawning effects. -/
def isSpawnFx : Effect → Bool
  | Effect.spawnSeek _ => true
  | _ => false

/-- Recognizer for position-query effects. -/
def isQueryPosFx : Effect → Bool
  | Effect.queryPos _ => true
  | _ => false

/-- Recognizer for the reference-release effect. -/
def isUnrefFx : Effect → Bool
  | Effect.unref => true
  | _ => false

/-- Recognizer for the reference-sink (acquire) effect. -/
def isRefSinkFx : Effect → Bool
  | Effect.refSink => true
  | _ => false

/-- A freshly constructed handle: rate 1.0, cached position 0. -/
def elFresh : Element := ⟨1, 0⟩

/-- A handle with cached position 7 ns (rate 1.0). -/
def elPos7 : Element := ⟨1, 7⟩

/-- A handle with cached position 6 ns (rate 1.0). -/
def elPos6 : Element := ⟨1, 6⟩

/-- An environment whose TIME duration query answers 1 ns, whose position
query never answers, and where every seek and state change succeeds. -/
def envDur1 : Env :=
  ⟨fun _ => none,
   fun f => if f = GstFormat.TIME then some 1 else none,
   fun _ => true,
   fun _ => GstStateChangeReturn.SUCCESS,
   fun _ => (GstState.NULL, GstState.VOID_PENDING, GstStateChangeReturn.SUCCESS)⟩

/-- An environment with a known 10 s duration (10_000_000_000 ns), a live
position query that does not answer, and seeks and state changes that
succeed. -/
def env10s : Env :=
  ⟨fun _ => none,
   fun f => if f = GstFormat.TIME then some 10000000000 else none,
   fun _ => true,
   fun _ => GstStateChangeReturn.SUCCESS,
   fun _ => (GstState.NULL, GstState.VOID_PENDING, GstStateChangeReturn.SUCCESS)⟩

/-- An environment where every state change fails but queries answer and
seeks succeed. -/
def envPauseFail : Env :=
  ⟨fun f => if f = GstFormat.TIME then some 5 else none,
   fun f => if f = GstFormat.TIME then some 10 else none,
   fun _ => true,
   fun _ => GstStateChangeReturn.FAILURE,
   fun _ => (GstState.NULL, GstState.VOID_PENDING, GstStateChangeReturn.FAILURE)⟩

/-- An environment where no query answers, every seek fails and every state
change fails. -/
def envAllFail : Env :=
  ⟨fun _ => none,
   fun _ => none,
   fun _ => false,
   fun _ => GstStateChangeReturn.FAILURE,
   fun _ => (GstState.NULL, GstState.VOID_PENDING, GstStateChangeReturn.FAILURE)⟩

/-- An environment with a known 4 ns duration and no live position answer,
used to exhibit a percentage above 1. -/
def envDur4 : Env :=
  ⟨fun _ => none,
   fun f => if f = GstFormat.TIME then some 4 else none,
   fun _ => true,
   fun _ => GstStateChangeReturn.SUCCESS,
   fun _ => (GstState.NULL, GstState.VOID_PENDING, GstStateChangeReturn.SUCCESS)⟩

/-- An environment whose get_state reports a PAUSED current state that
settled with NO_PREROLL (a live source in PAUSED). -/
def envNoPreroll : Env :=
  ⟨fun _ => none,
   fun _ => none,
   fun _ => true,
   fun _ => GstStateChangeReturn.NO_PREROLL,
   fun _ => (GstState.PAUSED, GstState.VOID_PENDING, GstStateChangeReturn.NO_PREROLL)⟩

/-- C6: set_speed_async stores the requested rate in the cached speed field
immediately and unconditionally - in particular also on an input where it
returns false because the live position query failed. -/
theorem c6_set_speed_async_rate_optimistic :
    (∀ env el sp, (set_speed_async env el sp).el.speed = sp) ∧
    ((set_speed_async env10s elFresh 3).ret = false ∧
      (set_speed_async env10s elFresh 3).el.speed = 3) := by
  refine ⟨?_, by decide, by decide⟩
  intro env el sp
  unfold set_speed_async
  by_cases h : sp = 0
  · simp [h, set_state]
  · simp only [h, if_false]
    cases hq : env.queryPositionR GstFormat.TIME with
    | none => simp [query_position, hq]
    | some pos =>
      simp only [query_position, hq]
      by_cases h2 : sp > 0 <;> simp [h2, seek_async]

/-- C7: position_ns is total: it returns the live TIME position query when
that answers and the cached last position otherwise, never touching the
handle state; and a handle freshly built by the factory caches position 0
(with rate 1.0). -/
theorem c7_position_ns_total :
    (∀ env el,
      (position_ns env el).ret =
        (match env.queryPositionR GstFormat.TIME with
          | some t => t
          | none => el.last_pos_ns) ∧
      (position_ns env el).el = el) ∧
    (∀ ok, (Element.new ok).1 =
      if ok then some ⟨1, 0⟩ else none) := by
  constructor
  · intro env el
    constructor
    · simp only [position_ns, query_position]
    · rfl
  · intro ok
    cases ok <;> rfl

/-- C8: destruction performs exactly the sequence: request the NULL state,
wait for the transition with an unbounded (negative) timeout, then release
the native reference - a single unref whatever the environment answers; and
construction acquires (ref-sinks) the native reference exactly once on
factory success and not at all on failure. -/
theorem c8_drop_sequence :
    (∀ env el,
      drop env el =
        [Effect.setState GstState.NULL, Effect.getState (-1), Effect.unref] ∧
      (drop env el).countP isUnrefFx = 1) ∧
    ((Element.new true).2.countP isRefSinkFx = 1 ∧
      (Element.new false).2 = []) := by
  exact ⟨fun env el => ⟨rfl, rfl⟩, by decide, rfl⟩

/-- C2: both set_position_ns and set_speed issue their underlying seek with
forward bounds (value, -1) when the effective rate is strictly positive and
with reverse bounds (0, value) when it is zero or negative: set_position_ns
always issues exactly that one seek at the cached rate, and set_speed issues
it at the new rate for a nonzero rate once the position query answers (the
zero-rate path pauses without seeking, and a failed query issues no seek). -/
theorem c2_seek_bound_asymmetry :
    ∀ env el ns sp,
      (set_position_ns env el ns).fx =
        [Effect.seek
          (if el.speed > 0 then
            ⟨el.speed, GstFormat.TIME, GST_SEEK_FLAG_FLUSH,
              GstSeekType.SET, ns, GstSeekType.SET, -1⟩
          else
            ⟨el.speed, GstFormat.TIME, GST_SEEK_FLAG_FLUSH,
              GstSeekType.SET, 0, GstSeekType.SET, ns⟩)] ∧
      (set_speed env el sp).fx =
        (if sp = 0 then [Effect.setState GstState.PAUSED]
         else
           match env.queryPositionR GstFormat.TIME with
           | none => [Effect.queryPos GstFormat.TIME]
           | some pos =>
             [Effect.queryPos GstFormat.TIME,
              Effect.seek
                (if sp > 0 then
                  ⟨sp, GstFormat.TIME,
                    GST_SEEK_FLAG_SKIP ||| GST_SEEK_FLAG_ACCURATE |||
                      GST_SEEK_FLAG_FLUSH,
                    GstSeekType.SET, pos, GstSeekType.SET, -1⟩
                else
                  ⟨sp, GstFormat.TIME,
                    GST_SEEK_FLAG_SKIP ||| GST_SEEK_FLAG_ACCURATE |||
                      GST_SEEK_FLAG_FLUSH,
                    GstSeekType.SET, 0, GstSeekType.SET, pos⟩)]) := by
  intro env el ns sp
  constructor
  · by_cases h : el.speed > 0 <;>
      · simp only [set_position_ns, seek, h, if_true, if_false]
        split <;> rfl
  · by_cases h : sp = 0
    · simp [set_speed, set_state, h]
    · simp only [set_speed, h, if_false]
      cases hq : env.queryPositionR GstFormat.TIME with
      | none => simp [query_position, hq]
      | some pos =>
        simp only [query_position, hq]
        by_cases h2 : sp > 0 <;>
          · simp only [h2, if_true, if_false, seek]
            split <;> rfl

/-- C3 counterexample: with a rate of 0 and an environment whose pause
transition fails, set_speed returns false and yet the cached rate has been
overwritten from 1 to 0 - refuting the claim that the cached rate is updated
only when set_speed returns true. -/
theorem c3_counterexample :
    (set_speed envPauseFail elFresh 0).ret = false ∧
    elFresh.speed = 1 ∧
    (set_speed envPauseFail elFresh 0).el.speed = 0 := by decide

/-- C3 (amended): set_speed(0) never queries the position and always attempts
exactly one pause transition, but it stores rate 0 in the cache
unconditionally, before knowing that transition's outcome; set_speed(r) for
nonzero r performs the TIME position query as its first native effect,
returns false when the query fails, and on that nonzero path updates the
cached rate exactly when it returns true. -/
theorem c3_set_speed_spec :
    ∀ env el sp,
      (set_speed env el 0).fx = [Effect.setState GstState.PAUSED] ∧
      (set_speed env el 0).el.speed = 0 ∧
      (set_speed env el sp).fx.head? =
        some (if sp = 0 then Effect.setState GstState.PAUSED
              else Effect.queryPos GstFormat.TIME) ∧
      ((set_speed env el sp).ret =
        (if sp = 0 then
          decide (env.setStateR GstState.PAUSED ≠ GstStateChangeReturn.FAILURE)
         else
           match env.queryPositionR GstFormat.TIME with
           | none => false
           | some pos =>
             env.seekR
               (if sp > 0 then
                 ⟨sp, GstFormat.TIME,
                   GST_SEEK_FLAG_SKIP ||| GST_SEEK_FLAG_ACCURATE |||
                     GST_SEEK_FLAG_FLUSH,
                   GstSeekType.SET, pos, GstSeekType.SET, -1⟩
               else
                 ⟨sp, GstFormat.TIME,
                   GST_SEEK_FLAG_SKIP ||| GST_SEEK_FLAG_ACCURATE |||
                     GST_SEEK_FLAG_FLUSH,
                   GstSeekType.SET, 0, GstSeekType.SET, pos⟩))) ∧
      ((set_speed env el sp).el.speed =
        (if sp = 0 then 0
         else if (set_speed env el sp).ret then sp else el.speed)) := by
  intro env el sp
  refine ⟨by simp [set_speed, set_state], by simp [set_speed, set_state], ?_, ?_, ?_⟩ <;>
    · by_cases h : sp = 0
      · simp [set_speed, set_state, h]
      · simp only [set_speed, h, if_false]
        cases hq : env.queryPositionR GstFormat.TIME with
        | none => simp [query_position, hq]
        | some pos =>
          simp only [query_position, hq]
          by_cases h2 : sp > 0 <;>
            · simp only [h2, if_true, if_false, seek]
              cases hr : env.seekR _ <;> simp [hr]

/-- C4 counterexample: set_speed_async can also report a synchronous failure:
in an environment whose position query does not answer, set_speed_async(2)
returns false (and spawns nothing) - refuting the claim that
set_position_pct_async is the only async variant that can fail
synchronously. -/
theorem c4_counterexample :
    (set_speed_async env10s elFresh 2).ret = false ∧
    (set_speed_async env10s elFresh 2).fx.countP isSpawnFx = 0 := by decide

/-- C4 (amended): among the async variants, seek_async, set_position_ns_async
and set_position_s_async never report failure and always spawn exactly one
thread; set_position_pct_async returns false exactly when the duration is
unknown, and then spawns no thread (it never issues a synchronous seek at
all); but set_speed_async can also fail synchronously - it returns false
when the rate is nonzero and the position query fails (spawning nothing),
and when the rate is zero and the pause transition fails. -/
theorem c4_async_failures :
    ∀ env el ns s pct sp rate format flags st start stt stop,
      (seek_async env el rate format flags st start stt stop).fx.countP
          isSpawnFx = 1 ∧
      (set_position_ns_async env el ns).fx.countP isSpawnFx = 1 ∧
      (set_position_s_async env el s).fx.countP isSpawnFx = 1 ∧
      ((set_position_pct_async env el pct).ret =
        (env.queryDurationR GstFormat.TIME).isSome) ∧
      ((set_position_pct_async env el pct).fx.countP isSpawnFx =
        if (env.queryDurationR GstFormat.TIME).isSome then 1 else 0) ∧
      (set_position_pct_async env el pct).fx.countP isSeekFx = 0 ∧
      ((set_speed_async env el sp).ret =
        (if sp = 0 then
          decide (env.setStateR GstState.PAUSED ≠ GstStateChangeReturn.FAILURE)
         else (env.queryPositionR GstFormat.TIME).isSome)) ∧
      ((set_speed_async env el sp).fx.countP isSpawnFx =
        if sp = 0 then 0
        else if (env.queryPositionR GstFormat.TIME).isSome then 1 else 0) := by
  intro env el ns s pct sp rate format flags st start stt stop
  have hns : ∀ n, (set_position_ns_async env el n).fx.countP isSpawnFx = 1 := by
    intro n
    by_cases h : el.speed > 0 <;>
      simp [set_position_ns_async, seek_async, h, List.countP, List.countP.go, isSpawnFx]
  have hpct : ∀ p2, (set_position_pct_async env el p2).ret =
        (env.queryDurationR GstFormat.TIME).isSome ∧
      (set_position_pct_async env el p2).fx.countP isSpawnFx =
        (if (env.queryDurationR GstFormat.TIME).isSome then 1 else 0) ∧
      (set_position_pct_async env el p2).fx.countP isSeekFx = 0 := by
    intro p2
    cases hd : env.queryDurationR GstFormat.TIME with
    | none =>
      simp [set_position_pct_async, duration_ns, query_duration, hd,
        List.countP, List.countP.go, isSpawnFx, isSeekFx]
    | some t =>
      by_cases h : el.speed > 0 <;>
        simp [set_position_pct_async, duration_ns, query_duration, hd,
          set_position_ns_async, seek_async, h, List.countP, List.countP.go, isSpawnFx,
          isSeekFx]
  refine ⟨by simp [seek_async, List.countP, List.countP.go, isSpawnFx], hns ns, hns _,
    (hpct pct).1, (hpct pct).2.1, (hpct pct).2.2, ?_, ?_⟩ <;>
    · by_cases h : sp = 0
      · simp [set_speed_async, set_state, h, List.countP, List.countP.go, isSpawnFx]
      · simp only [set_speed_async, h, if_false]
        cases hq : env.queryPositionR GstFormat.TIME with
        | none =>
          simp [query_position, hq, List.countP, List.countP.go, isSpawnFx]
        | some pos =>
          by_cases h2 : sp > 0 <;>
            simp [query_position, hq, h2, seek_async, List.countP, List.countP.go, isSpawnFx]

/-- C1 counterexample: the seek target of set_position_pct is not the floor
of D*p: with duration 1 ns and fraction -1/2 the code truncates toward zero
and the issued seek requests position 0 (forward bounds, the rate being 1),
while the floor of D*p is -1. -/
theorem c1_counterexample :
    envDur1.queryDurationR GstFormat.TIME = some 1 ∧
    (set_position_pct envDur1 elFresh (-(1 : ℚ)/2)).fx =
      [Effect.queryDur GstFormat.TIME,
       Effect.seek ⟨1, GstFormat.TIME, GST_SEEK_FLAG_FLUSH,
         GstSeekType.SET, 0, GstSeekType.SET, -1⟩] ∧
    ⌊((1 : Int) : ℚ) * (-(1 : ℚ)/2)⌋ = -1 ∧ (0 : Int) ≠ -1 := by
  refine ⟨rfl, ?_, by norm_num, by decide⟩
  norm_num [set_position_pct, duration_ns, query_duration, envDur1,
    set_position_ns, seek, elFresh, f64_as_i64]

/-- C1 (amended): set_position_pct reads the duration first; when the
duration D is known it forwards to set_position_ns at the truncation toward
zero of D*pct (which coincides with the floor of D*pct whenever that product
is nonnegative) and passes that seek's result through, and when the duration
is unknown it returns false, issues no seek, and leaves the handle - in
particular the cached position - unchanged.  With a known duration of
10_000_000_000 ns and fraction 1/2, the issued seek requests exactly position
5_000_000_000, succeeds, and the cached position then makes position_ns
report 5_000_000_000 while the live query is unavailable. -/
theorem c1_set_position_pct_spec :
    (∀ env el pct,
      (set_position_pct env el pct).ret =
        (match env.queryDurationR GstFormat.TIME with
          | some t => (set_position_ns env el (f64_as_i64 ((t : ℚ) * pct))).ret
          | none => false) ∧
      (set_position_pct env el pct).el =
        (match env.queryDurationR GstFormat.TIME with
          | some t => (set_position_ns env el (f64_as_i64 ((t : ℚ) * pct))).el
          | none => el) ∧
      (set_position_pct env el pct).fx =
        (match env.queryDurationR GstFormat.TIME with
          | some t => Effect.queryDur GstFormat.TIME ::
              (set_position_ns env el (f64_as_i64 ((t : ℚ) * pct))).fx
          | none => [Effect.queryDur GstFormat.TIME])) ∧
    (∀ q : ℚ, 0 ≤ q → f64_as_i64 q = ⌊q⌋) ∧
    ((set_position_pct env10s elFresh (1/2)).ret = true ∧
      (set_position_pct env10s elFresh (1/2)).fx =
        [Effect.queryDur GstFormat.TIME,
         Effect.seek ⟨1, GstFormat.TIME, GST_SEEK_FLAG_FLUSH,
           GstSeekType.SET, 5000000000, GstSeekType.SET, -1⟩] ∧
      (position_ns env10s (set_position_pct env10s elFresh (1/2)).el).ret =
        5000000000) := by
  refine ⟨?_, ?_,
    by norm_num [set_position_pct, duration_ns, query_duration, env10s,
      set_position_ns, seek, elFresh, f64_as_i64],
    by norm_num [set_position_pct, duration_ns, query_duration, env10s,
      set_position_ns, seek, elFresh, f64_as_i64],
    by norm_num [set_position_pct, duration_ns, query_duration, env10s,
      set_position_ns, seek, elFresh, f64_as_i64, position_ns, query_position]⟩
  · intro env el pct
    cases hd : env.queryDurationR GstFormat.TIME with
    | none =>
      exact ⟨by simp [set_position_pct, duration_ns, query_duration, hd],
        by simp [set_position_pct, duration_ns, query_duration, hd],
        by simp [set_position_pct, duration_ns, query_duration, hd]⟩
    | some t =>
      refine ⟨?_, ?_, ?_⟩ <;>
        simp [set_position_pct, duration_ns, query_duration, hd]
  · intro q hq
    simp [f64_as_i64, hq]

/-- C1 witness: the truncation-equals-floor clause of the amended claim,
instantiated at the nonnegative rational 3/2. -/
theorem c1_set_position_pct_spec_witness :
    f64_as_i64 (3/2 : ℚ) = ⌊(3/2 : ℚ)⌋ :=
  c1_set_position_pct_spec.2.1 (3/2) (by norm_num)

/-- C5 counterexample: set_position_ns_async mutates the cached position
unconditionally when it spawns its seek: under an environment in which every
seek fails (so the spawned seek cannot succeed), the cached position still
jumps from 7 to 42 - refuting the claim that every operation leaves the
cache unchanged unless its seek is confirmed successful. -/
theorem c5_counterexample :
    (set_position_ns_async envAllFail elPos7 42).el.last_pos_ns = 42 ∧
    elPos7.last_pos_ns = 7 ∧
    (set_position_ns_async envAllFail elPos7 42).fx =
      [Effect.ref, Effect.spawnSeek
        ⟨1, GstFormat.TIME, GST_SEEK_FLAG_ACCURATE ||| GST_SEEK_FLAG_FLUSH,
          GstSeekType.SET, 42, GstSeekType.SET, -1⟩] ∧
    envAllFail.seekR
      ⟨1, GstFormat.TIME, GST_SEEK_FLAG_ACCURATE ||| GST_SEEK_FLAG_FLUSH,
        GstSeekType.SET, 42, GstSeekType.SET, -1⟩ = false := by decide

/-- C5 (amended): the synchronous position-altering operations mutate the
cached position only on confirmed seek success - set_position_ns and
set_position_s leave the cache unchanged whenever their seek reports
failure, set_position_pct leaves it unchanged when the duration is unknown
or its seek fails, and set_speed and set_speed_async never touch it - but
the async position setters set_position_ns_async, set_position_s_async and,
on a known duration, set_position_pct_async overwrite the cache
unconditionally when they spawn their seek, regardless of its eventual
outcome. -/
theorem c5_position_cache_mutation :
    ∀ env el ns s pct sp,
      ((set_position_ns env el ns).el.last_pos_ns =
        if (set_position_ns env el ns).ret then ns else el.last_pos_ns) ∧
      ((set_position_s env el s).el.last_pos_ns =
        if (set_position_s env el s).ret then f64_as_i64 (s_to_ns s)
        else el.last_pos_ns) ∧
      ((set_position_pct env el pct).el.last_pos_ns =
        (match env.queryDurationR GstFormat.TIME with
          | none => el.last_pos_ns
          | some t =>
            if (set_position_pct env el pct).ret then f64_as_i64 ((t : ℚ) * pct)
            else el.last_pos_ns)) ∧
      ((set_speed env el sp).el.last_pos_ns = el.last_pos_ns) ∧
      ((set_speed_async env el sp).el.last_pos_ns = el.last_pos_ns) ∧
      ((set_position_ns_async env el ns).el.last_pos_ns = ns) ∧
      ((set_position_s_async env el s).el.last_pos_ns =
        f64_as_i64 (s_to_ns s)) ∧
      ((set_position_pct_async env el pct).el.last_pos_ns =
        (match env.queryDurationR GstFormat.TIME with
          | none => el.last_pos_ns
          | some t => f64_as_i64 ((t : ℚ) * pct))) := by
  intro env el ns s pct sp
  have hns : ∀ n, (set_position_ns env el n).el.last_pos_ns =
      if (set_position_ns env el n).ret then n else el.last_pos_ns := by
    intro n
    by_cases h : el.speed > 0 <;>
      · simp only [set_position_ns, seek, h, if_true, if_false]
        cases hr : env.seekR _ <;> simp [hr]
  have hnsa : ∀ n, (set_position_ns_async env el n).el.last_pos_ns = n := by
    intro n
    by_cases h : el.speed > 0 <;>
      simp [set_position_ns_async, seek_async, h]
  have hsp : (set_speed env el sp).el.last_pos_ns = el.last_pos_ns := by
    by_cases h : sp = 0
    · simp [set_speed, set_state, h]
    · simp only [set_speed, h, if_false]
      cases hq : env.queryPositionR GstFormat.TIME with
      | none => simp [query_position, hq]
      | some pos =>
        simp only [query_position, hq]
        by_cases h2 : sp > 0 <;>
          · simp only [h2, if_true, if_false, seek]
            cases hr : env.seekR _ <;> simp [hr]
  have hspa : (set_speed_async env el sp).el.last_pos_ns = el.last_pos_ns := by
    by_cases h : sp = 0
    · simp [set_speed_async, set_state, h]
    · simp only [set_speed_async, h, if_false]
      cases hq : env.queryPositionR GstFormat.TIME with
      | none => simp [query_position, hq]
      | some pos =>
        simp only [query_position, hq]
        by_cases h2 : sp > 0 <;> simp [h2, seek_async]
  have hpct : (set_position_pct env el pct).el.last_pos_ns =
      (match env.queryDurationR GstFormat.TIME with
        | none => el.last_pos_ns
        | some t =>
          if (set_position_pct env el pct).ret then f64_as_i64 ((t : ℚ) * pct)
          else el.last_pos_ns) := by
    cases hd : env.queryDurationR GstFormat.TIME with
    | none => simp [set_position_pct, duration_ns, query_duration, hd]
    | some t =>
      simp only [set_position_pct, duration_ns, query_duration, hd]
      exact hns (f64_as_i64 ((t : ℚ) * pct))
  have hpcta : (set_position_pct_async env el pct).el.last_pos_ns =
      (match env.queryDurationR GstFormat.TIME with
        | none => el.last_pos_ns
        | some t => f64_as_i64 ((t : ℚ) * pct)) := by
    cases hd : env.queryDurationR GstFormat.TIME with
    | none => simp [set_position_pct_async, duration_ns, query_duration, hd]
    | some t =>
      simp only [set_position_pct_async, duration_ns, query_duration, hd]
      exact hnsa (f64_as_i64 ((t : ℚ) * pct))
  exact ⟨hns ns, hns _, hpct, hsp, hspa, hnsa ns, hnsa _, hpcta⟩

/-- C9: position_pct returns absence exactly when the duration query fails;
when the duration D is known (and nonzero, a zero duration having no
rational counterpart of the float division the code performs) it returns
position_ns()/D - the cached fallback position standing in when the live
query does not answer - with no clamping: with duration 4 ns and cached
position 6 ns it reports 3/2, which exceeds 1. -/
theorem c9_position_pct_spec :
    (∀ env el,
      ((position_pct env el).ret.isSome ↔
        (env.queryDurationR GstFormat.TIME).isSome)) ∧
    (∀ env el (d : Int), env.queryDurationR GstFormat.TIME = some d →
      d ≠ 0 →
      (position_pct env el).ret =
        some (((position_ns env el).ret : ℚ) / (d : ℚ))) ∧
    ((position_pct envDur4 elPos6).ret = some (3/2) ∧ (1 : ℚ) < 3/2) := by
  refine ⟨?_, ?_,
    by norm_num [position_pct, position_ns, query_position, duration_ns,
      query_duration, envDur4, elPos6],
    by norm_num⟩
  · intro env el
    cases hd : env.queryDurationR GstFormat.TIME with
    | none => simp [position_pct, duration_ns, query_duration, hd]
    | some d => simp [position_pct, duration_ns, query_duration, hd]
  · intro env el d hd _hd0
    simp [position_pct, duration_ns, query_duration, hd]

/-- C9 witness: the known-duration clause applied to the concrete
environment with duration 4 ns and a handle whose cached position is 6 ns. -/
theorem c9_position_pct_spec_witness :
    (position_pct envDur4 elPos6).ret =
      some (((position_ns envDur4 elPos6).ret : ℚ) / ((4 : Int) : ℚ)) :=
  c9_position_pct_spec.2.1 envDur4 elPos6 4 rfl (by decide)

/-- C10: each of the four state predicates is true exactly when the
unbounded get_state reports the matching current state together with
GST_STATE_CHANGE_SUCCESS; an element whose state change settled with
NO_PREROLL while current state is PAUSED is reported not paused. -/
theorem c10_state_predicates :
    (∀ env el,
      ((is_paused env el).ret = true ↔
        (env.getStateR (-1)).1 = GstState.PAUSED ∧
          (env.getStateR (-1)).2.2 = GstStateChangeReturn.SUCCESS) ∧
      ((is_playing env el).ret = true ↔
        (env.getStateR (-1)).1 = GstState.PLAYING ∧
          (env.getStateR (-1)).2.2 = GstStateChangeReturn.SUCCESS) ∧
      ((is_null_state env el).ret = true ↔
        (env.getStateR (-1)).1 = GstState.NULL ∧
          (env.getStateR (-1)).2.2 = GstStateChangeReturn.SUCCESS) ∧
      ((is_ready_state env el).ret = true ↔
        (env.getStateR (-1)).1 = GstState.READY ∧
          (env.getStateR (-1)).2.2 = GstStateChangeReturn.SUCCESS)) ∧
    ((envNoPreroll.getStateR (-1)).1 = GstState.PAUSED ∧
      (is_paused envNoPreroll elFresh).ret = false) := by
  constructor
  · intro env el
    rcases h : env.getStateR (-1) with ⟨s, p, r⟩
    refine ⟨?_, ?_, ?_, ?_⟩ <;>
      · simp only [is_paused, is_playing, is_null_state, is_ready_state,
          get_state, h]
        cases s <;> cases r <;> simp
  · exact ⟨rfl, rfl⟩

end Gst
